import Mathlib

/-!
Verification of the Smart-Desk widget manager (src/dummy.py) against its
natural-language specification.  The Python source is shallowly embedded:
each stateful class becomes a Lean structure and each method a pure
function from the old state (plus inputs) to the new state together with
the user-visible message it emits.
-/

/-! ## To-do widget (TodoWidget, src/dummy.py lines 293-438)

A task is a dict `{'text': ..., 'completed': ...}`; the widget keeps an
ordered Python list of tasks. -/

structure TodoTask where
  text : String
  completed : Bool
deriving DecidableEq, Repr

/-- Python `str.strip()`: drop leading and trailing whitespace. -/
def pyStrip (s : String) : String :=
  String.mk (((s.toList.dropWhile Char.isWhitespace).reverse.dropWhile
    Char.isWhitespace).reverse)

/-- Model of `TodoWidget.add_task`: strips the entry text and appends a new
uncompleted task when the stripped text is non-empty (`if task_text:`). -/
def add_task (tasks : List TodoTask) (raw : String) : List TodoTask :=
  let task_text := pyStrip raw
  if task_text ≠ "" then tasks ++ [{ text := task_text, completed := false }] else tasks

/-- Flip the `completed` flag of the element at a (in-range) position. -/
def toggleAt : List TodoTask → Nat → List TodoTask
  | [], _ => []
  | tk :: rest, 0 => { text := tk.text, completed := !tk.completed } :: rest
  | tk :: rest, n + 1 => tk :: toggleAt rest n

/-- Model of `TodoWidget.toggle_task`: guarded by `0 <= index < len(self.tasks)`;
out-of-range indices (including negative ones) leave the list unchanged.
The index is an `Int` because Python callers could pass any integer. -/
def toggle_task (tasks : List TodoTask) (index : Int) : List TodoTask :=
  if 0 ≤ index ∧ index < (tasks.length : Int) then toggleAt tasks index.toNat else tasks

/-- Model of `TodoWidget.delete_task`: guarded by `0 <= index < len(self.tasks)`;
`del self.tasks[index]` removes the element at that position. -/
def delete_task (tasks : List TodoTask) (index : Int) : List TodoTask :=
  if 0 ≤ index ∧ index < (tasks.length : Int) then tasks.eraseIdx index.toNat else tasks

/-! ## Timer widget (TimerWidget, src/dummy.py lines 534-657) -/

structure TimerState where
  remaining_time : Int
  timer_active : Bool
deriving DecidableEq, Repr

inductive TimerMsg where
  | ok
  | invalidInput
deriving DecidableEq, Repr

/-- Model of `TimerWidget.start_timer`: `int(self.minutes_var.get())` either parses
to an integer (modelled as `some m` — any integer, no positivity check) or
raises `ValueError` (modelled as `none`), in which case the handler shows
an error and the state is untouched. -/
def start_timer (s : TimerState) (minutes : Option Int) : TimerState × TimerMsg :=
  match minutes with
  | some m => ({ remaining_time := m * 60, timer_active := true }, TimerMsg.ok)
  | none => (s, TimerMsg.invalidInput)

/-- Model of `TimerWidget.stop_timer`: forces inactive and resets remaining to 0. -/
def stop_timer (_ : TimerState) : TimerState :=
  { remaining_time := 0, timer_active := false }

/-- One tick of `TimerWidget.update_content`.  Returns the new state and
whether the one-time "Time's up!" message box was shown on this tick. -/
def update_content (s : TimerState) : TimerState × Bool :=
  if s.timer_active = true ∧ s.remaining_time > 0 then
    ({ remaining_time := s.remaining_time - 1, timer_active := s.timer_active }, false)
  else if s.timer_active = true ∧ s.remaining_time ≤ 0 then
    ({ remaining_time := s.remaining_time, timer_active := false }, true)
  else (s, false)

/-- Run `n` successive refresh ticks; also counts the "Time's up!"
notifications emitted over the sequence. -/
def runTicks : Nat → TimerState → TimerState × Nat
  | 0, s => (s, 0)
  | n + 1, s =>
    let step := update_content s
    let rest := runTicks n step.1
    (rest.1, (if step.2 then 1 else 0) + rest.2)

/-! ## Configuration values (per-widget config dicts)

A widget's `config` is a JSON-serialisable dict from option names to
values; it is modelled as an association list of simple values. -/

inductive CVal where
  | i (n : Int)
  | s (v : String)
  | f (num : Int) (den : Nat)
  | b (v : Bool)
deriving DecidableEq, Repr

abbrev WConfig := List (String × CVal)

/-- The keys of `WidgetManager.widget_types` (src/dummy.py lines 677-682). -/
def widget_types : List String := ["Clock", "Todo List", "Weather", "Timer"]

/-- Defaults returned by `get_default_config` of each widget class, keyed by the manager's name
for that class. -/
def get_default_config : String → WConfig
  | "Clock" =>
    [("width", CVal.i 280), ("height", CVal.i 120), ("bg_color", CVal.s "#1C1B1F"),
     ("text_color", CVal.s "#FFFFFF"), ("accent_color", CVal.s "#D0BCFF"),
     ("font_family", CVal.s "Segoe UI"), ("font_size", CVal.i 18),
     ("opacity", CVal.f 95 100), ("format_12h", CVal.b true),
     ("corner_radius", CVal.i 16)]
  | "Todo List" =>
    [("width", CVal.i 320), ("height", CVal.i 400), ("bg_color", CVal.s "#FFFFFF"),
     ("text_color", CVal.s "#1C1B1F"), ("accent_color", CVal.s "#6750A4"),
     ("surface_color", CVal.s "#F7F2FA"), ("font_family", CVal.s "Segoe UI"),
     ("font_size", CVal.i 11), ("opacity", CVal.f 95 100),
     ("max_items", CVal.i 10)]
  | "Weather" =>
    [("width", CVal.i 300), ("height", CVal.i 200), ("bg_color", CVal.s "#E3F2FD"),
     ("text_color", CVal.s "#1565C0"), ("accent_color", CVal.s "#2196F3"),
     ("font_family", CVal.s "Segoe UI"), ("font_size", CVal.i 12),
     ("opacity", CVal.f 95 100), ("location", CVal.s "Calgary, AB")]
  | "Timer" =>
    [("width", CVal.i 250), ("height", CVal.i 180), ("bg_color", CVal.s "#FFF3E0"),
     ("text_color", CVal.s "#E65100"), ("accent_color", CVal.s "#FF9800"),
     ("font_family", CVal.s "Segoe UI"), ("font_size", CVal.i 14),
     ("opacity", CVal.f 95 100)]
  | _ => []

/-! ## Desktop attachment and manager state
(DesktopWidget, src/dummy.py lines 98-182; WidgetManager lines 659-1616) -/

/-- The position/pin state of a `DesktopWidget`.  The Tk window itself is
presentation only; its existence coincides with `is_pinned` in every
manager code path. -/
structure DesktopWidget where
  x : Int
  y : Int
  is_pinned : Bool
deriving DecidableEq, Repr

/-- A `widget_info` dict of `WidgetManager.active_widgets`: its `'type'`,
`'name'`, the instance's `config`, and the `'desktop_widget'` slot. -/
structure WidgetInfo where
  wtype : String
  name : String
  config : WConfig
  desktop_widget : Option DesktopWidget
deriving DecidableEq, Repr

/-- Manager state: `active_widgets` plus `len(self.desktop_widgets)` (only
the length of the pinned-widget list ever feeds back into the logic, via
the stagger computation). -/
structure ManagerState where
  active_widgets : List WidgetInfo
  desktop_count : Nat
deriving DecidableEq, Repr

/-- Kind of toast shown by `show_success_message` / `show_info_message` /
`show_warning_message` / `show_error_message`. -/
inductive Msg where
  | success
  | info
  | warning
  | error
deriving DecidableEq, Repr

/-- The truth value of `widget_info['desktop_widget'] and
widget_info['desktop_widget'].is_pinned`. -/
def widgetIsPinned (w : WidgetInfo) : Bool :=
  match w.desktop_widget with
  | some d => d.is_pinned
  | none => false

/-- Model of `WidgetManager.pin_widget_to_desktop` (lines 888-901): no-op when the
widget is already pinned, otherwise attaches it at the staggered position
`(100 + len(desktop_widgets)*30, 100 + len(desktop_widgets)*30)`. -/
def pin_widget_to_desktop (s : ManagerState) (i : Nat) : ManagerState :=
  match s.active_widgets[i]? with
  | none => s
  | some w =>
    if widgetIsPinned w then s
    else
      let x : Int := 100 + (s.desktop_count : Int) * 30
      let y : Int := 100 + (s.desktop_count : Int) * 30
      { active_widgets :=
          s.active_widgets.set i
            { w with desktop_widget := some { x := x, y := y, is_pinned := true } },
        desktop_count := s.desktop_count + 1 }

/-- Model of `WidgetManager.create_widget` (lines 867-886): appends a fresh
instance named `f"{widget_type} #{len(self.active_widgets) + 1}"` and
immediately pins it. -/
def create_widget (s : ManagerState) (widget_type : String) : ManagerState :=
  let info : WidgetInfo :=
    { wtype := widget_type,
      name := widget_type ++ " #" ++ toString (s.active_widgets.length + 1),
      config := get_default_config widget_type,
      desktop_widget := none }
  let s2 : ManagerState :=
    { active_widgets := s.active_widgets ++ [info], desktop_count := s.desktop_count }
  pin_widget_to_desktop s2 s.active_widgets.length

/-- Model of `WidgetManager.pin_selected_widget` (lines 903-917); `i` is the
listbox selection, `none` selection is the warning branch. -/
def pin_selected_widget (s : ManagerState) (i : Nat) : ManagerState × Msg :=
  match s.active_widgets[i]? with
  | none => (s, Msg.warning)
  | some w =>
    if widgetIsPinned w then (s, Msg.info)
    else (pin_widget_to_desktop s i, Msg.success)

/-- Model of `WidgetManager.unpin_selected_widget` (lines 919-934). -/
def unpin_selected_widget (s : ManagerState) (i : Nat) : ManagerState × Msg :=
  match s.active_widgets[i]? with
  | none => (s, Msg.warning)
  | some w =>
    if widgetIsPinned w then
      ({ active_widgets := s.active_widgets.set i { w with desktop_widget := none },
         desktop_count := s.desktop_count - 1 }, Msg.success)
    else (s, Msg.info)

/-! ## Persistence (save_config lines 1542-1569, load_config lines 1571-1616)

A record of the JSON document.  Required keys are accessed with `[...]`
(raising `KeyError` when absent, hence `Option`), the pin keys with
`.get(..., default)`. -/

structure RawRecord where
  rtype : Option String
  rname : Option String
  rconfig : Option WConfig
  pinned : Bool
  desktop_x : Option Int
  desktop_y : Option Int
deriving DecidableEq, Repr

/-- The persisted document as `load_config` encounters it: absent file,
present-but-unparseable file (`json.load` raises), or a parsed record
list. -/
inductive Doc where
  | missing
  | unparseable
  | parsed (widgets : List RawRecord)
deriving DecidableEq, Repr

/-- Outcome of `load_config`: silent early return (missing file), the
success toast, or the `Failed to load layout` error toast from the
`except` handler. -/
inductive LoadResult where
  | silent
  | success
  | failure
deriving DecidableEq, Repr

/-- The record `save_config` emits for one widget: type, name, config
always; position and pinned flag only when currently pinned. -/
def saveRecord (w : WidgetInfo) : RawRecord :=
  match w.desktop_widget with
  | some d =>
    if d.is_pinned then
      { rtype := some w.wtype, rname := some w.name, rconfig := some w.config,
        pinned := true, desktop_x := some d.x, desktop_y := some d.y }
    else
      { rtype := some w.wtype, rname := some w.name, rconfig := some w.config,
        pinned := false, desktop_x := none, desktop_y := none }
  | none =>
      { rtype := some w.wtype, rname := some w.name, rconfig := some w.config,
        pinned := false, desktop_x := none, desktop_y := none }

/-- Model of `WidgetManager.save_config`: serialises every active widget in
order. -/
def save_config (s : ManagerState) : Doc :=
  Doc.parsed (s.active_widgets.map saveRecord)

/-- The widget `load_config` reconstructs from one recognised record.
`BaseWidget.__init__` uses `config or self.get_default_config()`, so an
empty (falsy) config dict is replaced by the default one. -/
def buildFromRecord (t nm : String) (cfg : WConfig) (pinned : Bool)
    (dx dy : Option Int) : WidgetInfo :=
  { wtype := t, name := nm,
    config := if cfg = [] then get_default_config t else cfg,
    desktop_widget :=
      if pinned then some { x := dx.getD 100, y := dy.getD 100, is_pinned := true }
      else none }

/-- The record loop of `load_config`.  Accessing a missing required key
raises `KeyError`, which the surrounding `except` catches: the loop stops
and the partially rebuilt state stands (third component `false`).
Records whose type is not in `widget_types` are skipped. -/
def loadLoop : List WidgetInfo → Nat → List RawRecord → List WidgetInfo × Nat × Bool
  | acc, cnt, [] => (acc, cnt, true)
  | acc, cnt, r :: rest =>
    match r.rtype with
    | none => (acc, cnt, false)
    | some t =>
      if t ∈ widget_types then
        match r.rconfig with
        | none => (acc, cnt, false)
        | some cfg =>
          match r.rname with
          | none => (acc, cnt, false)
          | some nm =>
            loadLoop (acc ++ [buildFromRecord t nm cfg r.pinned r.desktop_x r.desktop_y])
              (if r.pinned then cnt + 1 else cnt) rest
      else loadLoop acc cnt rest

/-- Model of `WidgetManager.load_config`: missing file returns silently before
anything is touched; a `json.load` failure is caught before the state is
cleared; otherwise the state is fully replaced (cleared, then rebuilt
record by record, possibly stopping midway on a key error). -/
def load_config (s : ManagerState) (doc : Doc) : ManagerState × LoadResult :=
  match doc with
  | Doc.missing => (s, LoadResult.silent)
  | Doc.unparseable => (s, LoadResult.failure)
  | Doc.parsed recs =>
    let out := loadLoop [] 0 recs
    ({ active_widgets := out.1, desktop_count := out.2.1 },
      if out.2.2 then LoadResult.success else LoadResult.failure)

/-- Observable content of a widget instance: type, name, config, pin
state and (when pinned) position. -/
structure Obs where
  wtype : String
  name : String
  config : WConfig
  pinned : Bool
  pos : Option (Int × Int)
deriving DecidableEq, Repr

def obsOf (w : WidgetInfo) : Obs :=
  match w.desktop_widget with
  | some d =>
    if d.is_pinned then
      { wtype := w.wtype, name := w.name, config := w.config,
        pinned := true, pos := some (d.x, d.y) }
    else
      { wtype := w.wtype, name := w.name, config := w.config,
        pinned := false, pos := none }
  | none =>
      { wtype := w.wtype, name := w.name, config := w.config,
        pinned := false, pos := none }

/-- What one save/load round trip turns a widget into. -/
def reload (w : WidgetInfo) : WidgetInfo :=
  match w.desktop_widget with
  | some d =>
    if d.is_pinned then
      { wtype := w.wtype, name := w.name, config := w.config,
        desktop_widget := some { x := d.x, y := d.y, is_pinned := true } }
    else
      { wtype := w.wtype, name := w.name, config := w.config, desktop_widget := none }
  | none =>
      { wtype := w.wtype, name := w.name, config := w.config, desktop_widget := none }

/-- Number of pinned widgets in a list. -/
def countPinned (l : List WidgetInfo) : Nat := (l.filter widgetIsPinned).length

/-- Whether a record names a recognised widget type. -/
def recognizedRecord (r : RawRecord) : Bool :=
  decide (r.rtype.getD "" ∈ widget_types)

/-- What `load_config` rebuilds from a well-formed recognised record. -/
def rebuildRecord (r : RawRecord) : WidgetInfo :=
  buildFromRecord (r.rtype.getD "") (r.rname.getD "") (r.rconfig.getD [])
    r.pinned r.desktop_x r.desktop_y

/-! ## Preview drag (open_desktop_preview lines 1192-1289,
on_preview_drag lines 1436-1464) -/

/-- A `preview_widget_items` entry's floating-point real-space
accumulator (`real_x`, `real_y`), modelled with exact rationals. -/
structure PreviewItem where
  real_x : ℚ
  real_y : ℚ
deriving DecidableEq, Repr

/-- The active drag target: the preview item plus the corresponding
desktop attachment that live-sync writes back to. -/
structure DragTarget where
  item : PreviewItem
  attachment : Option DesktopWidget
deriving DecidableEq, Repr

/-- Python `int()` applied to a float: truncation toward zero. -/
def pyTrunc (q : ℚ) : Int := if 0 ≤ q then ⌊q⌋ else ⌈q⌉

/-- Scale factor `self.scale_x = canvas_width / screen_width` (and likewise for y),
computed once when the preview opens. -/
def scale_factor (canvas screen : ℚ) : ℚ := canvas / screen

/-- One `on_preview_drag` event with incremental canvas delta
`(dx, dy)`: the real accumulator moves by `(dx/scale_x, dy/scale_y)` and,
if the widget is pinned, the truncated position is written through to the
attachment. -/
def on_preview_drag (scale_x scale_y : ℚ) (t : DragTarget) (dx dy : ℚ) : DragTarget :=
  let real_x := t.item.real_x + dx / scale_x
  let real_y := t.item.real_y + dy / scale_y
  let att :=
    match t.attachment with
    | some d =>
      if d.is_pinned then some { x := pyTrunc real_x, y := pyTrunc real_y, is_pinned := true }
      else some d
    | none => none
  { item := { real_x := real_x, real_y := real_y }, attachment := att }

/-- The empty manager (fresh start, nothing loaded). -/
def empty_manager : ManagerState := { active_widgets := [], desktop_count := 0 }

/-- Invariant holding along pin-only histories: the pinned-widget count
matches the widget count and widget j sits at the j-th stagger slot. -/
def StaggerInv (s : ManagerState) : Prop :=
  s.desktop_count = s.active_widgets.length ∧
  ∀ (j : Nat) (w : WidgetInfo), s.active_widgets[j]? = some w →
    w.desktop_widget =
      some { x := 100 + (j : Int) * 30, y := 100 + (j : Int) * 30, is_pinned := true }

/-- A manager with three widgets, all currently unpinned (as after
creating three widgets and unpinning each of them). -/
def three_unpinned : ManagerState :=
  { active_widgets :=
      [{ wtype := "Clock", name := "Clock #1",
         config := get_default_config "Clock", desktop_widget := none },
       { wtype := "Todo List", name := "Todo List #2",
         config := get_default_config "Todo List", desktop_widget := none },
       { wtype := "Weather", name := "Weather #3",
         config := get_default_config "Weather", desktop_widget := none }],
    desktop_count := 0 }

/-- Pin widget 0, pin widget 1, unpin widget 0, then pin widget 2. -/
def stagger_cex : ManagerState :=
  (pin_selected_widget
    ((unpin_selected_widget
      ((pin_selected_widget
        ((pin_selected_widget three_unpinned 0).1) 1).1) 0).1) 2).1

/-- Two widgets created (and auto-pinned) from the empty manager. -/
def two_pins : ManagerState :=
  List.foldl create_widget empty_manager ["Clock", "Todo List"]

/-- A manager with one pinned widget (for concrete evaluations). -/
def pinned_demo : ManagerState :=
  { active_widgets :=
      [{ wtype := "Clock", name := "Clock #1",
         config := get_default_config "Clock",
         desktop_widget := some { x := 100, y := 100, is_pinned := true } }],
    desktop_count := 1 }

/-- A manager with one unpinned widget (for concrete evaluations). -/
def unpinned_demo : ManagerState :=
  { active_widgets :=
      [{ wtype := "Timer", name := "Timer #1",
         config := get_default_config "Timer", desktop_widget := none }],
    desktop_count := 0 }

/-- A manager with one pinned and one unpinned widget (for concrete
round-trip evaluations). -/
def roundtrip_demo : ManagerState :=
  { active_widgets :=
      [{ wtype := "Clock", name := "Clock #1",
         config := get_default_config "Clock",
         desktop_widget := some { x := 250, y := 300, is_pinned := true } },
       { wtype := "Todo List", name := "Todo List #2",
         config := get_default_config "Todo List", desktop_widget := none }],
    desktop_count := 1 }

/-- A record with every required key missing: `widget_data['type']`
raises `KeyError` on it. -/
def malformed_record : RawRecord :=
  { rtype := none, rname := none, rconfig := none,
    pinned := false, desktop_x := none, desktop_y := none }

/-- A well-formed record of a recognised type. -/
def clock_record : RawRecord :=
  { rtype := some "Clock", rname := some "Clock #1",
    rconfig := some (get_default_config "Clock"),
    pinned := true, desktop_x := some 250, desktop_y := some 300 }

/-- A well-formed record naming an unrecognised widget type. -/
def bogus_record : RawRecord :=
  { rtype := some "Sticky Notes", rname := some "Sticky #1",
    rconfig := some [("width", CVal.i 200)],
    pinned := false, desktop_x := none, desktop_y := none }

/-- A second well-formed record of a recognised type. -/
def timer_record : RawRecord :=
  { rtype := some "Timer", rname := some "Timer #2",
    rconfig := some (get_default_config "Timer"),
    pinned := false, desktop_x := none, desktop_y := none }

/-! ## Theorems -/

/-- Auxiliary: while active with enough remaining seconds, `k` ticks
decrement the counter by `k` and emit no notification. -/
theorem runTicks_active (k : Nat) : ∀ r : Int, (k : Int) ≤ r →
    runTicks k { remaining_time := r, timer_active := true } =
      ({ remaining_time := r - k, timer_active := true }, 0) := by
  induction k with
  | zero => intro r _; simp [runTicks]
  | succ n ih =>
    intro r hr
    have hpos : r > 0 := by
      have : ((n : Int) + 1) ≤ r := by exact_mod_cast hr
      omega
    have hstep : update_content { remaining_time := r, timer_active := true } =
        ({ remaining_time := r - 1, timer_active := true }, false) := by
      simp [update_content, hpos]
    have hrec : runTicks n { remaining_time := r - 1, timer_active := true } =
        ({ remaining_time := (r - 1) - n, timer_active := true }, 0) := by
      apply ih
      have : ((n : Int) + 1) ≤ r := by exact_mod_cast hr
      omega
    have hcast : (r - 1) - (n : Int) = r - ((n + 1 : Nat) : Int) := by push_cast; ring
    simp only [runTicks, hstep, hrec, hcast]
    simp

/-- Auxiliary: an inactive timer is a fixed point of the tick and never
notifies. -/
theorem runTicks_inactive (m : Nat) (r : Int) :
    runTicks m { remaining_time := r, timer_active := false } =
      ({ remaining_time := r, timer_active := false }, 0) := by
  induction m with
  | zero => simp [runTicks]
  | succ n ih => simp [runTicks, update_content, ih]

/-- Auxiliary: tick sequences compose. -/
theorem runTicks_add (a b : Nat) (s : TimerState) :
    runTicks (a + b) s =
      ((runTicks b (runTicks a s).1).1,
        (runTicks a s).2 + (runTicks b (runTicks a s).1).2) := by
  induction a generalizing s with
  | zero => simp [runTicks]
  | succ n ih =>
    have h1 : n + 1 + b = (n + b) + 1 := by omega
    rw [h1]
    simp only [runTicks, ih]
    cases h : (update_content s).2 <;> simp [h, add_assoc]

/-- C2 (counterexample): the minutes input `0` is non-positive, yet
`start_timer` accepts it, mutating the timer state (the active flag flips
to true) and reporting no input error — against the claim that every
non-positive input leaves the state unchanged and yields InvalidInput. -/
theorem start_timer_nonpositive_cex :
    start_timer { remaining_time := 0, timer_active := false } (some 0) =
      ({ remaining_time := 0, timer_active := true }, TimerMsg.ok) ∧
    ¬ (start_timer { remaining_time := 0, timer_active := false } (some 0) =
        (({ remaining_time := 0, timer_active := false } : TimerState), TimerMsg.invalidInput)) := by
  exact ⟨rfl, by decide⟩

/-- C2 (amended): `start_timer` with a non-numeric input (the `int()`
parse raises ValueError) leaves the timer state exactly as it was and
reports the invalid-input error; any input that parses to an integer `m`
— positive or not — is accepted with no positivity check, setting
remaining = m*60 and activating the timer. -/
theorem start_timer_validation (s : TimerState) (m : Int) :
    start_timer s none = (s, TimerMsg.invalidInput) ∧
    start_timer s (some m) =
      ({ remaining_time := m * 60, timer_active := true }, TimerMsg.ok) :=
  ⟨rfl, rfl⟩

set_option maxRecDepth 4000 in
/-- C3 (counterexample): after `start(1)` and exactly 1×60 refresh ticks
the counter is 0 but the timer is still active and no "time's up"
notification has been emitted — against the claimed active = false with
exactly one notification. -/
theorem timer_sixty_ticks_cex :
    runTicks (1 * 60) (start_timer { remaining_time := 0, timer_active := false }
        (some ((1 : Nat) : Int))).1 =
      ({ remaining_time := 0, timer_active := true }, 0) ∧
    (({ remaining_time := 0, timer_active := true } : TimerState), (0 : Nat)) ≠
      (({ remaining_time := 0, timer_active := false } : TimerState), (1 : Nat)) := by
  exact ⟨by decide, by decide⟩

/-- C3 (amended): for every n ≥ 1, `start(n)` followed by n×60 refresh
ticks yields remaining = 0 with the timer still active and no
notification emitted yet; the single "time's up" notification fires on
tick n×60 + 1, which also deactivates the timer, and any number of
further ticks emits no additional notification (exactly one overall). -/
theorem timer_countdown (n m : Nat) (h : 1 ≤ n) (s : TimerState) :
    runTicks (n * 60) (start_timer s (some ((n : Nat) : Int))).1 =
      ({ remaining_time := 0, timer_active := true }, 0) ∧
    runTicks (n * 60 + 1) (start_timer s (some ((n : Nat) : Int))).1 =
      ({ remaining_time := 0, timer_active := false }, 1) ∧
    runTicks (n * 60 + 1 + m) (start_timer s (some ((n : Nat) : Int))).1 =
      ({ remaining_time := 0, timer_active := false }, 1) := by
  have hcast : ((n * 60 : Nat) : Int) = (n : Int) * 60 := by push_cast; ring
  have h1 : runTicks (n * 60) { remaining_time := (n : Int) * 60, timer_active := true } =
      ({ remaining_time := 0, timer_active := true }, 0) := by
    rw [runTicks_active (n * 60) ((n : Int) * 60) hcast.le, hcast]
    simp
  have hone : runTicks 1 { remaining_time := (0 : Int), timer_active := true } =
      ({ remaining_time := 0, timer_active := false }, 1) := by
    simp [runTicks, update_content]
  have h2 : runTicks (n * 60 + 1) { remaining_time := (n : Int) * 60, timer_active := true } =
      ({ remaining_time := 0, timer_active := false }, 1) := by
    rw [runTicks_add (n * 60) 1, h1]
    simpa using hone
  have h3 : runTicks (n * 60 + 1 + m)
        { remaining_time := (n : Int) * 60, timer_active := true } =
      ({ remaining_time := 0, timer_active := false }, 1) := by
    rw [runTicks_add (n * 60 + 1) m, h2]
    simp [runTicks_inactive]
  exact ⟨h1, h2, h3⟩

/-- Witness for `timer_countdown` at n = 1, m = 0. -/
theorem timer_countdown_witness :
    1 ≤ 1 ∧
    (runTicks (1 * 60) (start_timer { remaining_time := 0, timer_active := false }
          (some ((1 : Nat) : Int))).1 =
        ({ remaining_time := 0, timer_active := true }, 0) ∧
      runTicks (1 * 60 + 1) (start_timer { remaining_time := 0, timer_active := false }
          (some ((1 : Nat) : Int))).1 =
        ({ remaining_time := 0, timer_active := false }, 1) ∧
      runTicks (1 * 60 + 1 + 0) (start_timer { remaining_time := 0, timer_active := false }
          (some ((1 : Nat) : Int))).1 =
        ({ remaining_time := 0, timer_active := false }, 1)) :=
  ⟨by decide, timer_countdown 1 0 (by decide) { remaining_time := 0, timer_active := false }⟩

/-- Auxiliary: folding `add_task` over non-blank texts appends the
stripped tasks in order. -/
theorem add_task_foldl (texts : List String) :
    ∀ init : List TodoTask, (∀ t ∈ texts, pyStrip t ≠ "") →
      texts.foldl add_task init =
        init ++ texts.map (fun t => { text := pyStrip t, completed := false }) := by
  induction texts with
  | nil => intro init _; simp
  | cons a rest ih =>
    intro init h
    have ha : pyStrip a ≠ "" := h a (List.mem_cons_self a rest)
    rw [List.foldl_cons, ih (add_task init a) (fun t ht => h t (List.mem_cons_of_mem _ ht))]
    simp [add_task, ha]

/-- Auxiliary: toggling the same position twice is the identity. -/
theorem toggleAt_toggleAt (l : List TodoTask) : ∀ i, toggleAt (toggleAt l i) i = l := by
  induction l with
  | nil => intro i; rfl
  | cons tk rest ih =>
    intro i
    cases i with
    | zero => simp [toggleAt]
    | succ n => simp [toggleAt, ih]

/-- Auxiliary: toggling preserves length. -/
theorem toggleAt_length (l : List TodoTask) : ∀ i, (toggleAt l i).length = l.length := by
  induction l with
  | nil => intro i; rfl
  | cons tk rest ih =>
    intro i
    cases i with
    | zero => simp [toggleAt]
    | succ n => simp [toggleAt, ih]

/-- C9: after adding k non-blank tasks, deleting the task at any index
i < k yields the first i tasks followed by the tasks after position i
(k−1 tasks, original relative order, only the indicated one removed);
and toggling any valid index twice restores the list exactly. -/
theorem todo_add_delete_toggle (texts : List String)
    (hne : ∀ t ∈ texts, pyStrip t ≠ "") (i : Nat) (hi : i < texts.length) :
    delete_task (texts.foldl add_task []) ((i : Nat) : Int) =
      (texts.foldl add_task []).take i ++ (texts.foldl add_task []).drop (i + 1) ∧
    (delete_task (texts.foldl add_task []) ((i : Nat) : Int)).length = texts.length - 1 ∧
    ∀ j : Nat, j < texts.length →
      toggle_task (toggle_task (texts.foldl add_task []) ((j : Nat) : Int)) ((j : Nat) : Int) =
        texts.foldl add_task [] := by
  have hlen : (texts.foldl add_task []).length = texts.length := by
    rw [add_task_foldl texts [] hne]; simp
  have hcond : (0 : Int) ≤ (i : Int) ∧ (i : Int) < ((texts.foldl add_task []).length : Int) := by
    refine ⟨Int.ofNat_nonneg i, ?_⟩
    rw [hlen]; exact_mod_cast hi
  refine ⟨?_, ?_, ?_⟩
  · rw [delete_task, if_pos hcond]
    simp [List.eraseIdx_eq_take_drop_succ]
  · rw [delete_task, if_pos hcond]
    simp only [Int.toNat_natCast, List.length_eraseIdx, hlen]
    rw [if_pos hi]
  · intro j hj
    have hjc : (0 : Int) ≤ (j : Int) ∧ (j : Int) < ((texts.foldl add_task []).length : Int) := by
      refine ⟨Int.ofNat_nonneg j, ?_⟩
      rw [hlen]; exact_mod_cast hj
    have e1 : toggle_task (texts.foldl add_task []) ((j : Nat) : Int) =
        toggleAt (texts.foldl add_task []) j := by
      rw [toggle_task, if_pos hjc]; simp
    have hjc2 : (0 : Int) ≤ (j : Int) ∧
        (j : Int) < ((toggleAt (texts.foldl add_task []) j).length : Int) := by
      rw [toggleAt_length]; exact hjc
    rw [e1, toggle_task, if_pos hjc2]
    simp [toggleAt_toggleAt]

/-- Witness for `todo_add_delete_toggle` on three tasks, deleting index 1. -/
theorem todo_add_delete_toggle_witness :
    (∀ t ∈ (["alpha", " beta ", "gamma"] : List String), pyStrip t ≠ "") ∧
    1 < (["alpha", " beta ", "gamma"] : List String).length ∧
    (delete_task ((["alpha", " beta ", "gamma"] : List String).foldl add_task [])
        ((1 : Nat) : Int) =
      ((["alpha", " beta ", "gamma"] : List String).foldl add_task []).take 1 ++
        ((["alpha", " beta ", "gamma"] : List String).foldl add_task []).drop (1 + 1) ∧
    (delete_task ((["alpha", " beta ", "gamma"] : List String).foldl add_task [])
        ((1 : Nat) : Int)).length =
      (["alpha", " beta ", "gamma"] : List String).length - 1 ∧
    ∀ j : Nat, j < (["alpha", " beta ", "gamma"] : List String).length →
      toggle_task (toggle_task ((["alpha", " beta ", "gamma"] : List String).foldl add_task [])
          ((j : Nat) : Int)) ((j : Nat) : Int) =
        (["alpha", " beta ", "gamma"] : List String).foldl add_task []) :=
  ⟨by decide, by decide, todo_add_delete_toggle ["alpha", " beta ", "gamma"] (by decide) 1 (by decide)⟩

/-- C10: for any index outside [0, length) — including every negative
index — both `toggle_task` and `delete_task` are total no-ops: no
exception path exists and the task list is returned unchanged. -/
theorem todo_out_of_range (tasks : List TodoTask) (i : Int)
    (h : i < 0 ∨ (tasks.length : Int) ≤ i) :
    toggle_task tasks i = tasks ∧ delete_task tasks i = tasks := by
  have hc : ¬ ((0 : Int) ≤ i ∧ i < (tasks.length : Int)) := by omega
  rw [toggle_task, if_neg hc, delete_task, if_neg hc]
  exact ⟨rfl, rfl⟩

/-- Witness for `todo_out_of_range` at index −1 on a one-task list. -/
theorem todo_out_of_range_witness :
    ((-1 : Int) < 0 ∨ ((([{ text := "a", completed := false }] : List TodoTask)).length : Int) ≤ -1) ∧
    (toggle_task [{ text := "a", completed := false }] (-1) =
        [{ text := "a", completed := false }] ∧
      delete_task [{ text := "a", completed := false }] (-1) =
        [{ text := "a", completed := false }]) :=
  ⟨Or.inl (by decide), todo_out_of_range [{ text := "a", completed := false }] (-1) (Or.inl (by decide))⟩

/-- C7: a single `on_preview_drag` event moves the real-space accumulator
by exactly (dx/scale_x, dy/scale_y), and folding any sequence of drag
deltas produces the same accumulated real position as one event carrying
the summed delta — truncation to ints only happens at the write-back to
the attachment, never in the accumulator. -/
theorem drag_accumulator (scale_x scale_y : ℚ) (t : DragTarget) (dx dy : ℚ)
    (ds : List (ℚ × ℚ)) :
    ((on_preview_drag scale_x scale_y t dx dy).item.real_x = t.item.real_x + dx / scale_x ∧
      (on_preview_drag scale_x scale_y t dx dy).item.real_y = t.item.real_y + dy / scale_y) ∧
    ((ds.foldl (fun a d => on_preview_drag scale_x scale_y a d.1 d.2) t).item.real_x =
        t.item.real_x + (ds.map Prod.fst).sum / scale_x ∧
      (ds.foldl (fun a d => on_preview_drag scale_x scale_y a d.1 d.2) t).item.real_y =
        t.item.real_y + (ds.map Prod.snd).sum / scale_y) := by
  refine ⟨⟨rfl, rfl⟩, ?_⟩
  induction ds generalizing t with
  | nil => simp
  | cons d rest ih =>
    simp only [List.foldl_cons, List.map_cons, List.sum_cons]
    obtain ⟨ih1, ih2⟩ := ih (on_preview_drag scale_x scale_y t d.1 d.2)
    constructor
    · rw [ih1]
      simp only [on_preview_drag]
      rw [add_div]
      ring
    · rw [ih2]
      simp only [on_preview_drag]
      rw [add_div]
      ring

/-- C8: pinning a widget that is already pinned changes nothing and is
reported as informational; likewise unpinning a widget that is not
pinned. -/
theorem pin_unpin_idempotence (s : ManagerState) (i : Nat) (w : WidgetInfo)
    (hw : s.active_widgets[i]? = some w) :
    (widgetIsPinned w = true → pin_selected_widget s i = (s, Msg.info)) ∧
    (widgetIsPinned w = false → unpin_selected_widget s i = (s, Msg.info)) := by
  constructor
  · intro hp
    simp [pin_selected_widget, hw, hp]
  · intro hp
    simp [unpin_selected_widget, hw, hp]

/-- Witness for `pin_unpin_idempotence`: pinning the pinned demo widget
and unpinning the unpinned demo widget are both no-ops reported as info. -/
theorem pin_unpin_idempotence_witness :
    (pinned_demo.active_widgets[0]? =
        some { wtype := "Clock", name := "Clock #1", config := get_default_config "Clock",
               desktop_widget := some { x := 100, y := 100, is_pinned := true } }) ∧
    (unpinned_demo.active_widgets[0]? =
        some { wtype := "Timer", name := "Timer #1", config := get_default_config "Timer",
               desktop_widget := none }) ∧
    pin_selected_widget pinned_demo 0 = (pinned_demo, Msg.info) ∧
    unpin_selected_widget unpinned_demo 0 = (unpinned_demo, Msg.info) :=
  ⟨by decide, by decide,
    (pin_unpin_idempotence pinned_demo 0
      { wtype := "Clock", name := "Clock #1", config := get_default_config "Clock",
        desktop_widget := some { x := 100, y := 100, is_pinned := true } }
      (by decide)).1 (by decide),
    (pin_unpin_idempotence unpinned_demo 0
      { wtype := "Timer", name := "Timer #1", config := get_default_config "Timer",
        desktop_widget := none }
      (by decide)).2 (by decide)⟩

/-- Auxiliary: setting the freshly appended last element. -/
theorem set_append_length {α : Type} (l : List α) (a b : α) :
    (l ++ [a]).set l.length b = l ++ [b] := by
  rw [List.set_append]
  simp

/-- Auxiliary: `create_widget` appends one widget pinned at the stagger
slot given by the current pinned count, and bumps the count. -/
theorem create_widget_stagger (s : ManagerState) (t : String) (h : StaggerInv s) :
    StaggerInv (create_widget s t) := by
  obtain ⟨hc, hp⟩ := h
  have hstate : create_widget s t =
      { active_widgets := s.active_widgets ++
          [{ wtype := t, name := t ++ " #" ++ toString (s.active_widgets.length + 1),
             config := get_default_config t,
             desktop_widget := some
               { x := 100 + (s.active_widgets.length : Int) * 30,
                 y := 100 + (s.active_widgets.length : Int) * 30, is_pinned := true } }],
        desktop_count := s.desktop_count + 1 } := by
    simp only [create_widget, pin_widget_to_desktop, List.getElem?_concat_length,
      widgetIsPinned, hc, set_append_length]
    simp
  rw [hstate]
  constructor
  · simp [hc]
  · intro j w hw
    rcases Nat.lt_trichotomy j s.active_widgets.length with hlt | heq | hgt
    · rw [List.getElem?_append_left hlt] at hw
      exact hp j w hw
    · subst heq
      rw [List.getElem?_concat_length] at hw
      injection hw with hw
      subst hw
      rfl
    · rw [List.getElem?_eq_none (by simp; omega)] at hw
      cases hw

/-- Auxiliary: the stagger invariant holds along any pin-only history. -/
theorem foldl_create_stagger (types : List String) :
    ∀ s : ManagerState, StaggerInv s → StaggerInv (List.foldl create_widget s types) := by
  induction types with
  | nil => intro s h; exact h
  | cons t rest ih => intro s h; exact ih _ (create_widget_stagger s t h)

/-- Auxiliary: the empty manager satisfies the stagger invariant. -/
theorem empty_manager_stagger : StaggerInv empty_manager := by
  constructor
  · rfl
  · intro j w hw
    simp [empty_manager] at hw

set_option maxRecDepth 8000 in
/-- C6 (counterexample): starting from three unpinned widgets, the
sequence pin 0, pin 1, unpin 0, pin 2 leaves widgets 1 and 2 both pinned
at exactly (130, 130): the stagger offset is computed from the current
pinned-widget count, so after an unpin a later pin reuses an occupied
slot — against the claim that no two pinned widgets ever coincide. -/
theorem stagger_overlap_cex :
    stagger_cex.active_widgets[1]? =
      some { wtype := "Todo List", name := "Todo List #2",
             config := get_default_config "Todo List",
             desktop_widget := some { x := 130, y := 130, is_pinned := true } } ∧
    stagger_cex.active_widgets[2]? =
      some { wtype := "Weather", name := "Weather #3",
             config := get_default_config "Weather",
             desktop_widget := some { x := 130, y := 130, is_pinned := true } } := by
  exact ⟨by decide, by decide⟩

/-- C6 (amended): each pin assigns the position staggered by the number
of currently pinned widgets; along any history of widget creations (each
of which pins) with no intervening unpins, every pair of distinct widgets
is pinned at distinct positions.  After an unpin, a later pin may exactly
coincide with an existing pinned widget's position. -/
theorem stagger_distinct_without_unpin (types : List String) (i j : Nat)
    (wi wj : WidgetInfo) (hij : i ≠ j)
    (hwi : (List.foldl create_widget empty_manager types).active_widgets[i]? = some wi)
    (hwj : (List.foldl create_widget empty_manager types).active_widgets[j]? = some wj)
    (di dj : DesktopWidget)
    (hdi : wi.desktop_widget = some di) (hdj : wj.desktop_widget = some dj) :
    di.is_pinned = true ∧ dj.is_pinned = true ∧ ¬ (di.x = dj.x ∧ di.y = dj.y) := by
  obtain ⟨_, hp⟩ := foldl_create_stagger types empty_manager empty_manager_stagger
  have h1 := hp i wi hwi
  have h2 := hp j wj hwj
  rw [hdi] at h1
  rw [hdj] at h2
  injection h1 with h1
  injection h2 with h2
  subst h1
  subst h2
  refine ⟨rfl, rfl, ?_⟩
  intro hxy
  obtain ⟨hx, _⟩ := hxy
  simp only at hx
  have : (i : Int) = (j : Int) := by omega
  exact hij (by exact_mod_cast this)

/-- Witness for `stagger_distinct_without_unpin`: two widgets created in
a row (no unpin) sit pinned at (100, 100) and (130, 130). -/
theorem stagger_distinct_without_unpin_witness :
    (0 : Nat) ≠ 1 ∧
    two_pins.active_widgets[0]? =
      some { wtype := "Clock", name := "Clock #1",
             config := get_default_config "Clock",
             desktop_widget := some { x := 100, y := 100, is_pinned := true } } ∧
    two_pins.active_widgets[1]? =
      some { wtype := "Todo List", name := "Todo List #2",
             config := get_default_config "Todo List",
             desktop_widget := some { x := 130, y := 130, is_pinned := true } } ∧
    ((true = true ∧ true = true ∧
      ¬ ((100 : Int) = 130 ∧ (100 : Int) = 130))) :=
  ⟨by decide, by decide, by decide,
    stagger_distinct_without_unpin ["Clock", "Todo List"] 0 1
      { wtype := "Clock", name := "Clock #1",
        config := get_default_config "Clock",
        desktop_widget := some { x := 100, y := 100, is_pinned := true } }
      { wtype := "Todo List", name := "Todo List #2",
        config := get_default_config "Todo List",
        desktop_widget := some { x := 130, y := 130, is_pinned := true } }
      (by decide) (by decide) (by decide)
      { x := 100, y := 100, is_pinned := true }
      { x := 130, y := 130, is_pinned := true }
      rfl rfl⟩

/-- Auxiliary: one `load_config` loop step on a well-formed record of a
recognised type. -/
theorem loadLoop_cons_wf (acc : List WidgetInfo) (cnt : Nat) (t nm : String)
    (cfg : WConfig) (p : Bool) (dx dy : Option Int) (rest : List RawRecord)
    (hty : t ∈ widget_types) :
    loadLoop acc cnt
        ({ rtype := some t, rname := some nm, rconfig := some cfg,
           pinned := p, desktop_x := dx, desktop_y := dy } :: rest) =
      loadLoop (acc ++ [buildFromRecord t nm cfg p dx dy])
        (if p then cnt + 1 else cnt) rest := by
  simp [loadLoop, hty]

/-- Auxiliary: one `load_config` loop step skipping an unrecognised
type. -/
theorem loadLoop_cons_unknown (acc : List WidgetInfo) (cnt : Nat) (t nm : String)
    (cfg : WConfig) (p : Bool) (dx dy : Option Int) (rest : List RawRecord)
    (hty : t ∉ widget_types) :
    loadLoop acc cnt
        ({ rtype := some t, rname := some nm, rconfig := some cfg,
           pinned := p, desktop_x := dx, desktop_y := dy } :: rest) =
      loadLoop acc cnt rest := by
  simp [loadLoop, hty]

/-- Auxiliary: the loop over well-formed records never raises, keeps
exactly the recognised records in order, and counts the pinned ones. -/
theorem loadLoop_wf (recs : List RawRecord)
    (h : ∀ r ∈ recs, r.rtype.isSome ∧ r.rname.isSome ∧ r.rconfig.isSome) :
    ∀ acc cnt, loadLoop acc cnt recs =
      (acc ++ (recs.filter recognizedRecord).map rebuildRecord,
        cnt + ((recs.filter recognizedRecord).filter (fun r => r.pinned)).length,
        true) := by
  induction recs with
  | nil => intro acc cnt; simp [loadLoop]
  | cons r rest ih =>
    intro acc cnt
    obtain ⟨h1, h2, h3⟩ := h r (List.mem_cons_self r rest)
    have ih2 := ih (fun r2 hr2 => h r2 (List.mem_cons_of_mem _ hr2))
    obtain ⟨rt, rn, rc, p, dx, dy⟩ := r
    cases rt with
    | none => simp at h1
    | some t =>
      cases rn with
      | none => simp at h2
      | some nm =>
        cases rc with
        | none => simp at h3
        | some cfg =>
          by_cases hty : t ∈ widget_types
          · rw [loadLoop_cons_wf acc cnt t nm cfg p dx dy rest hty, ih2]
            have hrec : recognizedRecord
                { rtype := some t, rname := some nm, rconfig := some cfg,
                  pinned := p, desktop_x := dx, desktop_y := dy } = true := by
              simp [recognizedRecord, hty]
            simp only [List.filter_cons, hrec, if_pos, List.map_cons]
            refine congrArg₂ Prod.mk ?_ (congrArg₂ Prod.mk ?_ rfl)
            · simp [rebuildRecord]
            · cases p <;> simp [List.filter_cons] <;> omega
          · rw [loadLoop_cons_unknown acc cnt t nm cfg p dx dy rest hty, ih2]
            have hrec : recognizedRecord
                { rtype := some t, rname := some nm, rconfig := some cfg,
                  pinned := p, desktop_x := dx, desktop_y := dy } = false := by
              simp [recognizedRecord, hty]
            simp [List.filter_cons, hrec]

/-- Auxiliary: a save/load round trip preserves the observable of each
widget. -/
theorem obs_reload (w : WidgetInfo) : obsOf (reload w) = obsOf w := by
  cases hd : w.desktop_widget with
  | none => simp [reload, obsOf, hd]
  | some d =>
    cases hpin : d.is_pinned with
    | false => simp [reload, obsOf, hd, hpin]
    | true => simp [reload, obsOf, hd, hpin]

/-- Auxiliary: observables after reloading a whole list. -/
theorem map_obs_reload (l : List WidgetInfo) :
    (l.map reload).map obsOf = l.map obsOf := by
  induction l with
  | nil => rfl
  | cons w rest ih => simp [ih, obs_reload]

/-- Auxiliary: running the load loop over the records `save_config`
emitted rebuilds every widget (all types recognised, no key missing). -/
theorem loadLoop_save (l : List WidgetInfo)
    (h : ∀ w ∈ l, w.wtype ∈ widget_types ∧ w.config ≠ []) :
    ∀ acc cnt, loadLoop acc cnt (l.map saveRecord) =
      (acc ++ l.map reload, cnt + countPinned l, true) := by
  induction l with
  | nil => intro acc cnt; simp [loadLoop, countPinned]
  | cons w rest ih =>
    intro acc cnt
    obtain ⟨hty, hcfg⟩ := h w (List.mem_cons_self w rest)
    have ih2 := ih (fun w2 hw2 => h w2 (List.mem_cons_of_mem _ hw2))
    cases hd : w.desktop_widget with
    | none =>
      have hs : saveRecord w =
          { rtype := some w.wtype, rname := some w.name, rconfig := some w.config,
            pinned := false, desktop_x := none, desktop_y := none } := by
        simp [saveRecord, hd]
      have hb : buildFromRecord w.wtype w.name w.config false none none = reload w := by
        simp [buildFromRecord, reload, hd, hcfg]
      have hcp : countPinned (w :: rest) = countPinned rest := by
        simp [countPinned, List.filter_cons, widgetIsPinned, hd]
      rw [List.map_cons, hs, loadLoop_cons_wf acc cnt w.wtype w.name w.config
        false none none (rest.map saveRecord) hty, ih2, hb, hcp]
      simp
    | some d =>
      cases hpin : d.is_pinned with
      | false =>
        have hs : saveRecord w =
            { rtype := some w.wtype, rname := some w.name, rconfig := some w.config,
              pinned := false, desktop_x := none, desktop_y := none } := by
          simp [saveRecord, hd, hpin]
        have hb : buildFromRecord w.wtype w.name w.config false none none = reload w := by
          simp [buildFromRecord, reload, hd, hpin, hcfg]
        have hcp : countPinned (w :: rest) = countPinned rest := by
          simp [countPinned, List.filter_cons, widgetIsPinned, hd, hpin]
        rw [List.map_cons, hs, loadLoop_cons_wf acc cnt w.wtype w.name w.config
          false none none (rest.map saveRecord) hty, ih2, hb, hcp]
        simp
      | true =>
        have hs : saveRecord w =
            { rtype := some w.wtype, rname := some w.name, rconfig := some w.config,
              pinned := true, desktop_x := some d.x, desktop_y := some d.y } := by
          simp [saveRecord, hd, hpin]
        have hb : buildFromRecord w.wtype w.name w.config true (some d.x) (some d.y) =
            reload w := by
          simp [buildFromRecord, reload, hd, hpin, hcfg]
        have hcp : countPinned (w :: rest) = countPinned rest + 1 := by
          simp [countPinned, List.filter_cons, widgetIsPinned, hd, hpin]
        rw [List.map_cons, hs, loadLoop_cons_wf acc cnt w.wtype w.name w.config
          true (some d.x) (some d.y) (rest.map saveRecord) hty, ih2, hb, hcp]
        refine congrArg₂ Prod.mk (by simp) (congrArg₂ Prod.mk (by simp; omega) rfl)

/-- C1: saving and immediately loading reproduces an observably identical
sequence (hence multiset) of widget instances — same types, names,
configs, pin flags, and positions of the pinned ones — and the load
succeeds.  The hypotheses characterise every state the manager can
actually reach: each widget's type is one of the registered
`widget_types` (instances are only ever constructed through that table)
and its config dict is non-empty (every constructor installs a non-empty
default config and customization never empties it). -/
theorem save_load_roundtrip (s : ManagerState)
    (h : ∀ w ∈ s.active_widgets, w.wtype ∈ widget_types ∧ w.config ≠ []) :
    (load_config s (save_config s)).1.active_widgets.map obsOf =
      s.active_widgets.map obsOf ∧
    (load_config s (save_config s)).2 = LoadResult.success := by
  have hl := loadLoop_save s.active_widgets h [] 0
  constructor
  · have hact : (load_config s (save_config s)).1.active_widgets =
        s.active_widgets.map reload := by
      simp [load_config, save_config, hl]
    rw [hact, map_obs_reload]
  · simp [load_config, save_config, hl]

/-- Witness for `save_load_roundtrip` on a manager holding one pinned and
one unpinned widget. -/
theorem save_load_roundtrip_witness :
    (∀ w ∈ roundtrip_demo.active_widgets, w.wtype ∈ widget_types ∧ w.config ≠ []) ∧
    ((load_config roundtrip_demo (save_config roundtrip_demo)).1.active_widgets.map obsOf =
        roundtrip_demo.active_widgets.map obsOf ∧
      (load_config roundtrip_demo (save_config roundtrip_demo)).2 = LoadResult.success) :=
  ⟨by decide, save_load_roundtrip roundtrip_demo (by decide)⟩

/-- C4 (amended): a missing document makes `load_config` return silently
with the state untouched, and a document whose JSON parse fails is
reported as a failure with the state untouched.  (A document that parses
but whose records are schema-malformed is reported only after the state
has already been cleared — see `load_malformed_record_cex`.) -/
theorem load_missing_or_unreadable (s : ManagerState) :
    load_config s Doc.missing = (s, LoadResult.silent) ∧
    load_config s Doc.unparseable = (s, LoadResult.failure) :=
  ⟨rfl, rfl⟩

/-- C4 (counterexample): a present, JSON-parseable document whose single
record lacks the required keys is malformed; `load_config` reports the
failure, but the manager state is NOT unchanged — the pre-existing
pinned widget has been discarded (the code clears `active_widgets`
before walking the records, and the `except` handler does not restore
it). -/
theorem load_malformed_record_cex :
    (load_config pinned_demo (Doc.parsed [malformed_record])).2 = LoadResult.failure ∧
    (load_config pinned_demo (Doc.parsed [malformed_record])).1 ≠ pinned_demo := by
  exact ⟨by decide, by decide⟩

/-- C5: loading a parsed document of well-formed records (each carrying
its type, name and config keys), at least one of which names an
unrecognised type, silently skips the unrecognised records and rebuilds
exactly the recognised ones, in order; no exception escapes (the load
reports success). -/
theorem load_skips_unknown_types (s : ManagerState) (recs : List RawRecord)
    (hwf : ∀ r ∈ recs, r.rtype.isSome ∧ r.rname.isSome ∧ r.rconfig.isSome)
    (hunk : ∃ r ∈ recs, recognizedRecord r = false) :
    (load_config s (Doc.parsed recs)).1.active_widgets =
      (recs.filter recognizedRecord).map rebuildRecord ∧
    (load_config s (Doc.parsed recs)).2 = LoadResult.success := by
  have hl := loadLoop_wf recs hwf [] 0
  constructor
  · simp [load_config, hl]
  · simp [load_config, hl]

/-- Witness for `load_skips_unknown_types`: a clock record, a record of
unknown type "Sticky Notes", and a timer record load into exactly the
clock and timer widgets. -/
theorem load_skips_unknown_types_witness :
    (∀ r ∈ [clock_record, bogus_record, timer_record],
      r.rtype.isSome ∧ r.rname.isSome ∧ r.rconfig.isSome) ∧
    (∃ r ∈ [clock_record, bogus_record, timer_record], recognizedRecord r = false) ∧
    ((load_config empty_manager
          (Doc.parsed [clock_record, bogus_record, timer_record])).1.active_widgets =
        ([clock_record, bogus_record, timer_record].filter recognizedRecord).map
          rebuildRecord ∧
      (load_config empty_manager
          (Doc.parsed [clock_record, bogus_record, timer_record])).2 =
        LoadResult.success) :=
  ⟨by decide, by decide,
    load_skips_unknown_types empty_manager [clock_record, bogus_record, timer_record]
      (by decide) (by decide)⟩
